import Mathlib

/-!
Verification of the Berlin administrative services MCP server
(src/berlin_services_mcp/server.py).

The Python module is shallowly embedded below: JSON scalar values become the
inductive type JVal; every record field read with a Python dict .get is an
Option field, with the .get default applied at each use site exactly as in the
source; Python string operations (lower, slicing, len, the in operator,
str coercion, truthiness) are modelled over the char list of a Lean String.
The asynchronous fetch-and-cache function becomes an explicit state
transition on the optional cache, with an extra flag recording whether the
network was touched.  The tool dispatcher call_tool receives the outcome of
fetch_services_data as an Except value: an exception raised during the fetch
(HTTP error or JSON parse failure) is the error case, and the top level
try/except of the source corresponds to the error branch producing the
"Error: " text response.
-/

/-- A JSON scalar value as it can appear in a record field such as id.
Numbers are modelled as integers, which is what the upstream feed carries. -/
inductive JVal where
  | jnull
  | jbool (b : Bool)
  | jnum (n : Int)
  | jstr (s : String)
deriving DecidableEq, Repr

/-- Python str() applied to a JSON scalar: str(None) is "None", booleans
render capitalised, integers via decimal notation. -/
def pyStrJ : JVal → String
  | JVal.jnull => "None"
  | JVal.jbool b => if b then "True" else "False"
  | JVal.jnum n => toString n
  | JVal.jstr s => s

/-- Python str() applied to the result of dict.get with no default:
an absent key gives None, and str(None) is "None". -/
def pyStrOptJ : Option JVal → String
  | none => "None"
  | some v => pyStrJ v

/-- Rendering of dict.get(key, d) inside an f-string when the stored value is
a JSON scalar and the default d is a string (as in service.get('id', 'N/A')). -/
def pyShowJD (o : Option JVal) (d : String) : String :=
  match o with
  | none => d
  | some v => pyStrJ v

/-- Rendering of an optional string inside an f-string: Python prints None
for an absent value. -/
def pyShowOptStr : Option String → String
  | none => "None"
  | some s => s

/-- Python truthiness of dict.get('link') when the field holds a string:
None and the empty string are falsy. -/
def pyTruthy : Option String → Bool
  | none => false
  | some s => s ≠ ""

/-- Does the char list start with the given pattern?  Used to model the
Python substring operator. -/
def charsStartWith : List Char → List Char → Bool
  | _, [] => true
  | [], _ :: _ => false
  | c :: cs, p :: ps => c == p && charsStartWith cs ps

/-- Does the pattern occur as a contiguous run anywhere in the char list? -/
def charsContain : List Char → List Char → Bool
  | [], pat => charsStartWith [] pat
  | c :: cs, pat => charsStartWith (c :: cs) pat || charsContain cs pat

/-- Python: sub in s (substring containment). -/
def pyIn (sub s : String) : Bool := charsContain s.data sub.data

/-- Python str.lower, modelled as lowering each code point. -/
def strLower (s : String) : String := String.mk (s.data.map Char.toLower)

/-- Python s[:n] for a nonnegative n: the first n code points. -/
def pyTake (s : String) (n : Nat) : String := String.mk (s.data.take n)

/-- Python l[:n] for an arbitrary integer n: a nonnegative n takes the first
n elements, a negative n drops the last -n elements (clamped at zero). -/
def pySliceTo {α : Type} (l : List α) (n : Int) : List α :=
  if 0 ≤ n then l.take n.toNat else l.take (l.length - (-n).toNat)

/-- The meta object of a service record; only meta.url is read. -/
structure Meta where
  url : Option String := none
deriving DecidableEq, Repr

/-- One entry of the requirements array. -/
structure Requirement where
  name : Option String := none
  description : Option String := none
deriving DecidableEq, Repr

/-- One entry of the prerequisites array. -/
structure Prerequisite where
  name : Option String := none
deriving DecidableEq, Repr

/-- One entry of the forms array. -/
structure Form where
  name : Option String := none
  link : Option String := none
deriving DecidableEq, Repr

/-- The onlineprocessing object; only its link is read. -/
structure OnlineProcessing where
  link : Option String := none
deriving DecidableEq, Repr

/-- The appointment object; only its link is read. -/
structure Appointment where
  link : Option String := none
deriving DecidableEq, Repr

/-- One entry of the authorities array. -/
structure Authority where
  name : Option String := none
deriving DecidableEq, Repr

/-- One entry of the legal array. -/
structure LegalRef where
  name : Option String := none
  link : Option String := none
deriving DecidableEq, Repr

/-- A service record.  Every field the source reads with .get is optional;
absent means the key is missing from the JSON object. -/
structure Service where
  id : Option JVal := none
  name : Option String := none
  description : Option String := none
  fees : Option String := none
  process_time : Option String := none
  meta : Option Meta := none
  requirements : Option (List Requirement) := none
  prerequisites : Option (List Prerequisite) := none
  forms : Option (List Form) := none
  onlineprocessing : Option OnlineProcessing := none
  appointment : Option Appointment := none
  authorities : Option (List Authority) := none
  legal : Option (List LegalRef) := none
deriving DecidableEq, Repr

/-- The full JSON document fetched from the remote endpoint. -/
structure Dataset where
  data : Option (List Service) := none
  datacount : Option Int := none
  created : Option String := none
  locale : Option String := none
  hash : Option String := none
  error : Option Bool := none
deriving DecidableEq, Repr

/-- The projection built for each match by search_services. -/
structure SearchResult where
  id : Option JVal
  name : Option String
  description : String
  url : String
  fees : String
deriving DecidableEq, Repr

/-- The projection built for each record by list_all_services. -/
structure ListItem where
  id : Option JVal
  name : Option String
  url : String
deriving DecidableEq, Repr

/-- A text content item of a tool response; the source always constructs
TextContent with the type field set to "text".  The Python field named type
is called ctype here because type is a Lean keyword. -/
structure TextContent where
  ctype : String
  text : String
deriving DecidableEq, Repr

/-- The arguments dictionary of a tool invocation; each key may be absent. -/
structure Args where
  query : Option String := none
  service_id : Option String := none
  limit : Option Int := none
deriving DecidableEq, Repr

deriving instance DecidableEq for Except

/-- Outcome of one call to fetch_services_data: the returned or raised value,
the cache cell after the call, and whether the network was contacted. -/
structure FetchOutcome where
  result : Except String Dataset
  cache : Option Dataset
  accessed : Bool
deriving DecidableEq, Repr

/-- fetch_services_data.  The module-global _services_cache is the explicit
cache argument; network describes what the GET plus raise_for_status plus
response.json() would produce on this call (ok data, or error for an HTTP or
parse exception).  If the cache is populated it is returned at once with no
network access; otherwise the network is consulted, a success is stored in
the cache, and a failure is raised leaving the cache unpopulated. -/
def fetch_services_data (cache : Option Dataset)
    (network : Except String Dataset) : FetchOutcome :=
  match cache with
  | some d => { result := Except.ok d, cache := some d, accessed := false }
  | none =>
    match network with
    | Except.ok d => { result := Except.ok d, cache := some d, accessed := true }
    | Except.error e => { result := Except.error e, cache := none, accessed := true }

/-- A sequence of calls to fetch_services_data, threading the cache cell:
each list element is the network behaviour that call would observe. -/
def runFetches (cache : Option Dataset) :
    List (Except String Dataset) → List FetchOutcome × Option Dataset
  | [] => ([], cache)
  | n :: ns =>
    let o := fetch_services_data cache n
    let rest := runFetches o.cache ns
    (o :: rest.1, rest.2)

/-- The match test of search_services: the lowered query occurs in the
lowered name or in the lowered description (absent fields default to ""). -/
def matchesQuery (query : String) (service : Service) : Bool :=
  pyIn (strLower query) (strLower (service.name.getD "")) ||
  pyIn (strLower query) (strLower (service.description.getD ""))

/-- The result projection of search_services: description truncated to the
first 200 code points plus "..." when the original exceeds 200, url from
meta.url defaulting to "", fees defaulting to "". -/
def searchProject (service : Service) : SearchResult :=
  { id := service.id
  , name := service.name
  , description :=
      if (service.description.getD "").length > 200
      then pyTake (service.description.getD "") 200 ++ "..."
      else service.description.getD ""
  , url := (service.meta.getD {}).url.getD ""
  , fees := service.fees.getD "" }

/-- search_services: linear scan of data.get("data", []) keeping, in order,
the projection of every record whose name or description contains the query
case-insensitively. -/
def search_services (data : Dataset) (query : String) : List SearchResult :=
  (data.data.getD []).filterMap (fun service =>
    if matchesQuery query service then some (searchProject service) else none)

/-- The loop of get_service_by_id: first record whose id, coerced to its
string form, equals the supplied identifier (itself already a string, so its
str() coercion is the identity). -/
def findById (service_id : String) : List Service → Option Service
  | [] => none
  | s :: rest =>
      if pyStrOptJ s.id == service_id then some s else findById service_id rest

/-- get_service_by_id: scan data.get("data", []) and return the first record
with str(record id) equal to str(service_id), or None. -/
def get_service_by_id (data : Dataset) (service_id : String) : Option Service :=
  findById service_id (data.data.getD [])

/-- The nine unconditional lines format_service_details starts with: title,
identifier, url, and the Description, Fees and Process Time sections, each
absent field rendered as the N/A placeholder. -/
def headerLines (service : Service) : List String :=
  [ "# " ++ service.name.getD "N/A"
  , "\n**ID:** " ++ pyShowJD service.id "N/A"
  , "**URL:** " ++ (service.meta.getD {}).url.getD "N/A"
  , "\n## Description"
  , service.description.getD "N/A"
  , "\n## Fees"
  , service.fees.getD "N/A"
  , "\n## Process Time"
  , service.process_time.getD "N/A" ]

/-- The Requirements section: emitted when requirements is non-empty, one
subsection heading per requirement (name defaulting to N/A) followed by its
description, which defaults to the empty string. -/
def requirementsLines (service : Service) : List String :=
  let requirements := service.requirements.getD []
  if requirements.isEmpty then []
  else "\n## Requirements" ::
    requirements.flatMap (fun req =>
      ["\n### " ++ req.name.getD "N/A", req.description.getD ""])

/-- The Prerequisites section: emitted when prerequisites is non-empty and
the FIRST entry's name is not the sentinel string "keine"; one bullet per
entry, the name defaulting to N/A.  Note the source tests only
prerequisites[0], not the whole list. -/
def prerequisitesLines (service : Service) : List String :=
  match service.prerequisites.getD [] with
  | [] => []
  | p :: rest =>
      if p.name = some "keine" then []
      else "\n## Prerequisites" ::
        (p :: rest).map (fun q => "- " ++ q.name.getD "N/A")

/-- One bullet of the Forms section: a markdown link when the form has a
truthy link, otherwise plain text. -/
def formLine (form : Form) : String :=
  let name := form.name.getD "N/A"
  let link := form.link.getD ""
  if link ≠ "" then "- [" ++ name ++ "](" ++ link ++ ")" else "- " ++ name

/-- The Forms section: emitted when forms is non-empty. -/
def formsLines (service : Service) : List String :=
  let forms := service.forms.getD []
  if forms.isEmpty then [] else "\n## Forms" :: forms.map formLine

/-- The Online Processing section: emitted when onlineprocessing.link is
truthy (present and non-empty). -/
def onlineLines (service : Service) : List String :=
  let onl := service.onlineprocessing.getD {}
  if pyTruthy onl.link then
    ["\n## Online Processing", "[Process online](" ++ pyShowOptStr onl.link ++ ")"]
  else []

/-- The Appointment section: emitted when appointment.link is truthy. -/
def appointmentLines (service : Service) : List String :=
  let appt := service.appointment.getD {}
  if pyTruthy appt.link then
    ["\n## Appointment", "[Book appointment](" ++ pyShowOptStr appt.link ++ ")"]
  else []

/-- The Responsible Authorities section: emitted when authorities is
non-empty; bullets for the first five names, then an overflow line when more
than five exist. -/
def authoritiesLines (service : Service) : List String :=
  let authorities := service.authorities.getD []
  if authorities.isEmpty then []
  else
    let shown := (authorities.take 5).map (fun auth => "- " ++ auth.name.getD "N/A")
    if authorities.length > 5 then
      ("\n## Responsible Authorities" :: shown) ++
        ["- ... and " ++ toString (authorities.length - 5) ++ " more"]
    else "\n## Responsible Authorities" :: shown

/-- One bullet of the Legal Basis section. -/
def legalLine (law : LegalRef) : String :=
  let name := law.name.getD "N/A"
  let link := law.link.getD ""
  if link ≠ "" then "- [" ++ name ++ "](" ++ link ++ ")" else "- " ++ name

/-- The Legal Basis section: emitted when legal is non-empty. -/
def legalLines (service : Service) : List String :=
  let legal := service.legal.getD []
  if legal.isEmpty then [] else "\n## Legal Basis" :: legal.map legalLine

/-- The lines list built by format_service_details, in the source's append
order. -/
def format_service_lines (service : Service) : List String :=
  headerLines service ++ requirementsLines service ++ prerequisitesLines service
    ++ formsLines service ++ onlineLines service ++ appointmentLines service
    ++ authoritiesLines service ++ legalLines service

/-- format_service_details: the lines joined with a newline. -/
def format_service_details (service : Service) : String :=
  "\n".intercalate (format_service_lines service)

/-- The projection of list_all_services. -/
def listProject (service : Service) : ListItem :=
  { id := service.id
  , name := service.name
  , url := (service.meta.getD {}).url.getD "" }

/-- list_all_services: the Python slice data.get("data", [])[:limit] (with
Python semantics for a negative limit), each record projected to id, name
and meta.url. -/
def list_all_services (data : Dataset) (limit : Int) : List ListItem :=
  (pySliceTo (data.data.getD []) limit).map listProject

/-- The paragraph the dispatcher appends for one search result. -/
def resultBlock (r : SearchResult) : String :=
  "**" ++ pyShowOptStr r.name ++ "**\n" ++
  "ID: " ++ pyStrOptJ r.id ++ "\n" ++
  "URL: " ++ r.url ++ "\n" ++
  "Fees: " ++ r.fees ++ "\n" ++
  "Description: " ++ r.description ++ "\n\n"

/-- The text of a successful search_services response. -/
def searchOutput (query : String) (results : List SearchResult) : String :=
  "Found " ++ toString results.length ++ " service(s) matching '" ++ query
    ++ "':\n\n" ++ String.join (results.map resultBlock)

/-- The bullet pair the dispatcher appends for one listed service. -/
def listBlock (s : ListItem) : String :=
  "- **" ++ pyShowOptStr s.name ++ "** (ID: " ++ pyStrOptJ s.id ++ ")\n" ++
  "  " ++ s.url ++ "\n"

/-- The text of a list_services response. -/
def listOutput (data : Dataset) (services : List ListItem) : String :=
  "Berlin Administrative Services (showing " ++ toString services.length
    ++ " of " ++ toString (data.datacount.getD 0) ++ " total):\n\n"
    ++ String.join (services.map listBlock)

/-- Rendering of data.get('error', False) inside the stats f-string. -/
def pyShowOptBoolF : Option Bool → String
  | none => "False"
  | some b => if b then "True" else "False"

/-- The text of a get_services_stats response. -/
def statsOutput (data : Dataset) : String :=
  "# Berlin Services Statistics\n\n" ++
  "**Total Services:** " ++
    (match data.datacount with
     | none => "N/A"
     | some n => toString n) ++ "\n" ++
  "**Last Updated:** " ++ data.created.getD "N/A" ++ "\n" ++
  "**Locale:** " ++ data.locale.getD "N/A" ++ "\n" ++
  "**Data Hash:** " ++ data.hash.getD "N/A" ++ "\n" ++
  "**Error Status:** " ++ pyShowOptBoolF data.error ++ "\n\n" ++
  "The dataset contains information about " ++ toString (data.datacount.getD 0)
    ++ " administrative services provided by Berlin authorities.\n"

/-- The limit the dispatcher computes for list_services:
min(arguments.get("limit", 50), 200). -/
def dispatchLimit (args : Args) : Int := min (args.limit.getD 50) 200

/-- call_tool.  The fetch argument is the outcome of the awaited
fetch_services_data call, which the source performs FIRST, inside the
try block and before any branch on the tool name; an exception there is
caught by the top-level except and rendered as the "Error: " response, so no
parameter validation happens when the fetch fails. -/
def callTool (fetch : Except String Dataset) (name : String) (args : Args) :
    List TextContent :=
  match fetch with
  | Except.error e => [{ ctype := "text", text := "Error: " ++ e }]
  | Except.ok data =>
    if name = "search_services" then
      let query := args.query.getD ""
      if query = "" then
        [{ ctype := "text", text := "Error: query parameter is required" }]
      else
        let results := search_services data query
        if results.isEmpty then
          [{ ctype := "text"
           , text := "No services found matching '" ++ query ++ "'" }]
        else
          [{ ctype := "text", text := searchOutput query results }]
    else if name = "get_service_details" then
      let service_id := args.service_id.getD ""
      if service_id = "" then
        [{ ctype := "text", text := "Error: service_id parameter is required" }]
      else
        match get_service_by_id data service_id with
        | none =>
            [{ ctype := "text"
             , text := "Service with ID '" ++ service_id ++ "' not found" }]
        | some service =>
            [{ ctype := "text", text := format_service_details service }]
    else if name = "list_services" then
      let services := list_all_services data (dispatchLimit args)
      [{ ctype := "text", text := listOutput data services }]
    else if name = "get_services_stats" then
      [{ ctype := "text", text := statsOutput data }]
    else
      [{ ctype := "text", text := "Unknown tool: " ++ name }]

/-! Concrete data used by the witnesses and counterexamples below. -/

/-- A 206 code point description whose only occurrence of the word needle
lies beyond position 200, so truncation removes it. -/
def descHidden : String := String.mk (List.replicate 200 'a') ++ "needle"

def svcHidden : Service := { name := some "Zzz", description := some descHidden }

def dsHidden : Dataset := { data := some [svcHidden] }

/-- The search result the scan produces for svcHidden. -/
def resHidden : SearchResult :=
  { id := none, name := some "Zzz"
  , description := String.mk (List.replicate 200 'a') ++ "..."
  , url := "", fees := "" }

def svcPlain : Service := { name := some "Anmeldung" }

def dsPlain : Dataset := { data := some [svcPlain] }

/-- A 201 code point description, one past the truncation threshold. -/
def descLong : String := String.mk (List.replicate 201 'a')

def svcLong : Service := { name := some "x", description := some descLong }

def dsLong : Dataset := { data := some [svcLong] }

/-- The search result the scan produces for svcLong. -/
def resLong : SearchResult :=
  { id := none, name := some "x"
  , description := String.mk (List.replicate 200 'a') ++ "..."
  , url := "", fees := "" }

/-- Prerequisites whose first entry is the sentinel but which is not the
single-entry sentinel list. -/
def svcKeineMixed : Service :=
  { prerequisites := some [{ name := some "keine" }, { name := some "Ausweis" }] }

def svcAusweis : Service :=
  { prerequisites := some [{ name := some "Ausweis" }] }

def svcListA : Service := { id := some (JVal.jnum 1), name := some "A" }

def svcListB : Service := { id := some (JVal.jnum 2), name := some "B" }

def dsTwo : Dataset := { data := some [svcListA, svcListB] }

def svcStrId : Service := { id := some (JVal.jstr "x7"), name := some "Other" }

def svcNum42 : Service := { id := some (JVal.jnum 42), name := some "FortyTwo" }

def dsIds : Dataset := { data := some [svcStrId, svcNum42] }

/-- A record with every rendered top-level field present and one requirement
whose description is missing. -/
def svcReqNoDesc : Service :=
  { id := some (JVal.jnum 1), name := some "A", description := some "d"
  , fees := some "f", process_time := some "p"
  , meta := some { url := some "u" }
  , requirements := some [{ name := some "X" }] }

/-! Helper lemmas shared by the claim theorems. -/

theorem str_length_data (s : String) : s.length = s.data.length := rfl

theorem findById_eq_find? (service_id : String) (l : List Service) :
    findById service_id l = l.find? (fun s => pyStrOptJ s.id == service_id) := by
  induction l with
  | nil => rfl
  | cons s rest ih =>
      by_cases h : pyStrOptJ s.id == service_id
      · simp [findById, List.find?_cons, h]
      · simp only [Bool.not_eq_true] at h
        simp [findById, List.find?_cons, h, ih]

/-- C9: once the cache holds a dataset d, every later call to
fetch_services_data returns exactly d, touches the network on none of them,
and leaves the cache holding d, for any sequence of network behaviours. -/
theorem cache_hit_no_network_forever :
    ∀ (d : Dataset) (ns : List (Except String Dataset)),
    runFetches (some d) ns =
      (ns.map (fun _ =>
        { result := Except.ok d, cache := some d, accessed := false }), some d) := by
  intro d ns
  induction ns with
  | nil => rfl
  | cons n ns ih => simp [runFetches, fetch_services_data, ih]

/-- C10: a failing first fetch raises the error, leaves the cache
unpopulated, and any call that starts from an empty cache contacts the
network, so the next invocation re-attempts the fetch. -/
theorem fetch_failure_not_cached :
    ∀ (e : String) (n : Except String Dataset),
    fetch_services_data none (Except.error e) =
      { result := Except.error e, cache := none, accessed := true }
    ∧ (fetch_services_data none n).accessed = true := by
  intro e n
  refine ⟨rfl, ?_⟩
  cases n <;> rfl

/-- C6: get_service_by_id is the first-match scan comparing string-coerced
identifiers: it agrees with find?, returns none exactly when no record's
coerced id equals the supplied id, any hit is a member whose coerced id
matches and is preceded only by non-matches, and a numeric id n coerces to
its decimal string, so the string form "42" matches the numeric id 42. -/
theorem get_service_by_id_first_string_match :
    ∀ (data : Dataset) (service_id : String),
    get_service_by_id data service_id =
      (data.data.getD []).find? (fun s => pyStrOptJ s.id == service_id)
    ∧ (get_service_by_id data service_id = none ↔
        ∀ s ∈ data.data.getD [], pyStrOptJ s.id ≠ service_id)
    ∧ (∀ s, get_service_by_id data service_id = some s →
        s ∈ data.data.getD [] ∧ pyStrOptJ s.id = service_id ∧
        ∃ l₁ l₂, data.data.getD [] = l₁ ++ s :: l₂ ∧
          ∀ t ∈ l₁, pyStrOptJ t.id ≠ service_id)
    ∧ (∀ n : Int, pyStrOptJ (some (JVal.jnum n)) = toString n) := by
  intro data service_id
  have hfind := findById_eq_find? service_id (data.data.getD [])
  refine ⟨hfind, ?_, ?_, fun n => rfl⟩
  · rw [get_service_by_id, hfind, List.find?_eq_none]
    constructor
    · intro h s hs
      have := h s hs
      simpa using this
    · intro h s hs
      simpa using h s hs
  · intro s hsome
    rw [get_service_by_id, hfind, List.find?_eq_some] at hsome
    obtain ⟨hp, l₁, l₂, hsplit, hbefore⟩ := hsome
    refine ⟨?_, by simpa using hp, l₁, l₂, hsplit, ?_⟩
    · rw [hsplit]
      exact List.mem_append_right l₁ (List.mem_cons_self s l₂)
    · intro t ht
      have := hbefore t ht
      simpa using this

/-- C6 witness: in a concrete dataset the supplied string "42" finds the
record whose id is the number 42, and a nonexistent id yields none. -/
theorem get_service_by_id_first_string_match_witness :
    get_service_by_id dsIds "42" = some svcNum42
    ∧ get_service_by_id dsIds "999" = none := by
  constructor
  · exact (get_service_by_id_first_string_match dsIds "42").1.trans (by decide)
  · exact (get_service_by_id_first_string_match dsIds "999").2.1.mpr (by decide)

/-- C5 (amended): the dispatcher performs the dataset fetch first, so a
failing fetch yields the "Error: " response even when the required parameter
is missing; only when the fetch succeeds does a missing or empty query or
service_id yield its parameter-error message. -/
theorem dispatcher_fetches_before_validation :
    ∀ (args : Args) (e : String) (data : Dataset),
    callTool (Except.error e) "search_services" args =
      [{ ctype := "text", text := "Error: " ++ e }]
    ∧ callTool (Except.error e) "get_service_details" args =
      [{ ctype := "text", text := "Error: " ++ e }]
    ∧ (args.query.getD "" = "" →
        callTool (Except.ok data) "search_services" args =
          [{ ctype := "text", text := "Error: query parameter is required" }])
    ∧ (args.service_id.getD "" = "" →
        callTool (Except.ok data) "get_service_details" args =
          [{ ctype := "text", text := "Error: service_id parameter is required" }]) := by
  intro args e data
  refine ⟨rfl, rfl, ?_, ?_⟩
  · intro h
    simp [callTool, h]
  · intro h
    simp [callTool, h]

/-- C5 witness: with an empty arguments dictionary, a failing fetch gives
the fetch error text while a successful fetch gives each parameter error. -/
theorem dispatcher_fetches_before_validation_witness :
    callTool (Except.error "boom") "search_services" {} =
      [{ ctype := "text", text := "Error: boom" }]
    ∧ callTool (Except.ok {}) "search_services" {} =
      [{ ctype := "text", text := "Error: query parameter is required" }]
    ∧ callTool (Except.ok {}) "get_service_details" {} =
      [{ ctype := "text", text := "Error: service_id parameter is required" }] := by
  have h := dispatcher_fetches_before_validation {} "boom" {}
  exact ⟨h.1.trans (by decide), h.2.2.1 (by decide), h.2.2.2 (by decide)⟩

/-- C5 counterexample: a missing query with a failing fetch produces the
fetch error text, not the query-parameter message, so the parameter error is
not independent of the fetch outcome. -/
theorem missing_query_error_depends_on_fetch :
    ({} : Args).query.getD "" = ""
    ∧ callTool (Except.error "boom") "search_services" {} =
        [{ ctype := "text", text := "Error: boom" }]
    ∧ ("Error: boom" : String) ≠ "Error: query parameter is required" := by
  decide

/-- C4 (amended): list_all_services returns the Python slice of the dataset
projected to id, name and url: a nonnegative limit takes that many leading
records, zero gives the empty list, a limit at least the dataset length
gives the whole dataset, and a NEGATIVE limit follows Python slice
semantics, dropping the last -limit records rather than yielding the empty
list; the dispatcher clamps the requested limit to at most 200. -/
theorem list_services_limit_behaviour :
    ∀ (data : Dataset) (limit : Int) (args : Args),
    list_all_services data 0 = []
    ∧ (0 ≤ limit →
        list_all_services data limit =
          ((data.data.getD []).take limit.toNat).map listProject)
    ∧ (((data.data.getD []).length : Int) ≤ limit →
        list_all_services data limit = (data.data.getD []).map listProject)
    ∧ (limit < 0 →
        list_all_services data limit =
          ((data.data.getD []).take
            ((data.data.getD []).length - (-limit).toNat)).map listProject)
    ∧ dispatchLimit args ≤ 200 := by
  intro data limit args
  refine ⟨?_, ?_, ?_, ?_, min_le_right _ _⟩
  · simp [list_all_services, pySliceTo]
  · intro h
    rw [list_all_services, pySliceTo, if_pos h]
  · intro h
    have h0 : (0 : Int) ≤ limit := le_trans (by positivity) h
    rw [list_all_services, pySliceTo, if_pos h0,
      List.take_of_length_le (by omega)]
  · intro h
    rw [list_all_services, pySliceTo, if_neg (by omega)]

/-- C4 witness: on a concrete two-record dataset, limit 0 gives the empty
list, limit 10000 gives the whole projected dataset, and the dispatcher
limit of an empty arguments dictionary is at most 200. -/
theorem list_services_limit_behaviour_witness :
    list_all_services dsTwo 0 = []
    ∧ list_all_services dsTwo 10000 = [listProject svcListA, listProject svcListB]
    ∧ dispatchLimit {} ≤ 200 := by
  have h := list_services_limit_behaviour dsTwo 10000 {}
  exact ⟨(list_services_limit_behaviour dsTwo 0 {}).1,
    (h.2.2.1 (by decide)).trans (by decide), h.2.2.2.2⟩

/-- C4 counterexample: a negative limit does not yield an empty sequence:
on the two-record dataset, limit -1 returns the first record (Python slice
semantics drop only the last record). -/
theorem list_negative_limit_not_empty :
    list_all_services dsTwo (-1) ≠ []
    ∧ list_all_services dsTwo (-1) = [listProject svcListA] := by
  decide

/-- C3 (amended): the Prerequisites section is emitted exactly when the
prerequisites list is non-empty and its FIRST entry's name differs from the
sentinel "keine" (the source never inspects the rest of the list), and then
it consists of the heading plus one bullet per prerequisite name. -/
theorem prerequisites_section_condition :
    ∀ (service : Service),
    (prerequisitesLines service ≠ [] ↔
      ∃ p rest, service.prerequisites.getD [] = p :: rest ∧ p.name ≠ some "keine")
    ∧ (∀ p rest, service.prerequisites.getD [] = p :: rest →
        p.name ≠ some "keine" →
        prerequisitesLines service =
          "\n## Prerequisites" :: (p :: rest).map (fun q => "- " ++ q.name.getD "N/A")) := by
  intro service
  constructor
  · constructor
    · intro hne
      rcases hcase : service.prerequisites.getD [] with _ | ⟨p, rest⟩
      · rw [prerequisitesLines, hcase] at hne
        simp at hne
      · by_cases hk : p.name = some "keine"
        · rw [prerequisitesLines, hcase] at hne
          simp [hk] at hne
        · exact ⟨p, rest, rfl, hk⟩
    · rintro ⟨p, rest, hcase, hk⟩
      rw [prerequisitesLines, hcase]
      simp [hk]
  · intro p rest hcase hk
    rw [prerequisitesLines, hcase]
    simp [hk]

/-- C3 witness: a single prerequisite named Ausweis produces the section
heading with exactly one bullet reading Ausweis. -/
theorem prerequisites_section_condition_witness :
    prerequisitesLines svcAusweis = ["\n## Prerequisites", "- Ausweis"] := by
  have h := (prerequisites_section_condition svcAusweis).2
    { name := some "Ausweis" } [] (by decide) (by decide)
  exact h.trans (by decide)

/-- C3 counterexample: a prerequisites list which is non-empty and is NOT
the single-entry sentinel list still omits the section, because only the
first entry's name is compared against the sentinel. -/
theorem prerequisites_first_sentinel_suppresses :
    svcKeineMixed.prerequisites.getD [] ≠ []
    ∧ svcKeineMixed.prerequisites.getD [] ≠ [{ name := some "keine" }]
    ∧ prerequisitesLines svcKeineMixed = []
    ∧ pyIn "## Prerequisites" (format_service_details svcKeineMixed) = false := by
  decide

/-- C1 (amended): for a non-empty query, every returned search result is
the projection of a SOURCE record whose name or description contains the
query case-insensitively (the projected description is truncated and need
not still contain it), and the result list is empty exactly when no record
matches — no match is an empty sequence, not an error. -/
theorem search_results_from_matching_records :
    ∀ (data : Dataset) (query : String), query ≠ "" →
    (∀ r ∈ search_services data query,
       ∃ s, s ∈ data.data.getD [] ∧ matchesQuery query s = true ∧ r = searchProject s)
    ∧ (search_services data query = [] ↔
        ∀ s ∈ data.data.getD [], matchesQuery query s = false) := by
  intro data query _
  constructor
  · intro r hr
    rw [search_services, List.mem_filterMap] at hr
    obtain ⟨s, hs, hf⟩ := hr
    by_cases hm : matchesQuery query s = true
    · rw [if_pos hm] at hf
      exact ⟨s, hs, hm, (Option.some.inj hf).symm⟩
    · rw [if_neg hm] at hf
      cases hf
  · rw [search_services, List.filterMap_eq_nil_iff]
    constructor
    · intro h s hs
      have hnone := h s hs
      by_cases hm : matchesQuery query s = true
      · rw [if_pos hm] at hnone
        cases hnone
      · simpa using hm
    · intro h s hs
      rw [if_neg (by simp [h s hs])]

/-- C1 witness: on a concrete one-record dataset and the non-empty query
xyz, every result comes from a matching record and emptiness is equivalent
to no record matching. -/
theorem search_results_from_matching_records_witness :
    (∀ r ∈ search_services dsPlain "xyz",
       ∃ s, s ∈ dsPlain.data.getD [] ∧ matchesQuery "xyz" s = true
         ∧ r = searchProject s)
    ∧ (search_services dsPlain "xyz" = [] ↔
        ∀ s ∈ dsPlain.data.getD [], matchesQuery "xyz" s = false) :=
  search_results_from_matching_records dsPlain "xyz" (by decide)

set_option maxRecDepth 40000 in
/-- C1 counterexample: a record matching only past the 200 code point
truncation threshold is returned, yet neither the returned name nor the
returned (truncated) description contains the query, even case
insensitively. -/
theorem search_truncation_hides_match :
    search_services dsHidden "needle" = [resHidden]
    ∧ pyIn (strLower "needle") (strLower (pyShowOptStr resHidden.name)) = false
    ∧ pyIn (strLower "needle") (strLower resHidden.description) = false := by
  decide

/-- C2 (amended): for every returned search result there is a source record
such that: when its description exceeds 200 code points, the returned
description has length exactly 203 and equals the 200 code point
truncation of the original followed by the ellipsis marker (so the
truncation, not the whole returned value, is a prefix of the original);
when the description has at most 200 code points it is returned
unchanged. -/
theorem search_description_truncation :
    ∀ (data : Dataset) (query : String) (r : SearchResult),
    r ∈ search_services data query →
    ∃ s, s ∈ data.data.getD [] ∧
      ((s.description.getD "").length > 200 →
        r.description.length = 203
        ∧ r.description = pyTake (s.description.getD "") 200 ++ "..."
        ∧ (pyTake (s.description.getD "") 200).data <+: (s.description.getD "").data)
      ∧ ((s.description.getD "").length ≤ 200 →
        r.description = s.description.getD "") := by
  intro data query r hr
  rw [search_services, List.mem_filterMap] at hr
  obtain ⟨s, hs, hf⟩ := hr
  by_cases hm : matchesQuery query s = true
  · rw [if_pos hm] at hf
    have hr' : r = searchProject s := (Option.some.inj hf).symm
    subst hr'
    refine ⟨s, hs, ?_, ?_⟩
    · intro hlen
      have hdesc : (searchProject s).description =
          pyTake (s.description.getD "") 200 ++ "..." := by
        simp [searchProject, hlen]
      refine ⟨?_, hdesc, ?_⟩
      · rw [hdesc, String.length_append, pyTake, String.length_mk,
          List.length_take]
        have hd : 200 ≤ (s.description.getD "").data.length := by
          have := hlen
          rw [str_length_data] at this
          omega
        have hmin : min 200 (s.description.getD "").data.length = 200 := by omega
        rw [hmin]
        rfl
      · rw [pyTake]
        exact List.take_prefix 200 (s.description.getD "").data
    · intro hle
      have hnot : ¬ (s.description.getD "").length > 200 := by omega
      simp [searchProject, hnot]
  · rw [if_neg hm] at hf
    cases hf

set_option maxRecDepth 40000 in
/-- C2 witness: applying the truncation law to the concrete 201 code point
description record and its returned result. -/
theorem search_description_truncation_witness :
    ∃ s, s ∈ dsLong.data.getD [] ∧
      ((s.description.getD "").length > 200 →
        resLong.description.length = 203
        ∧ resLong.description = pyTake (s.description.getD "") 200 ++ "..."
        ∧ (pyTake (s.description.getD "") 200).data <+: (s.description.getD "").data)
      ∧ ((s.description.getD "").length ≤ 200 →
        resLong.description = s.description.getD "") :=
  search_description_truncation dsLong "a" resLong (by decide)

set_option maxRecDepth 40000 in
/-- C2 counterexample: for the 201 code point description, the returned
description (200 code points plus the ellipsis marker) is NOT a prefix of
the original description — it is longer than the original and its 201st
code point differs — refuting the claim that the returned description
itself is a prefix of the original. -/
theorem search_truncation_breaks_prefix_law :
    search_services dsLong "a" = [resLong]
    ∧ resLong.description.length = 203
    ∧ charsStartWith descLong.data resLong.description.data = false := by
  decide

/-- C7: every invocation of call_tool yields exactly one text content item
(never a raised failure): a failing fetch is caught and rendered as
"Error: " plus the failure description whatever the tool name and
arguments, and an unrecognised tool name with a successful fetch yields the
unknown-tool message. -/
theorem call_tool_total_text_response :
    ∀ (fetch : Except String Dataset) (name : String) (args : Args),
    (∃ t : TextContent, callTool fetch name args = [t] ∧ t.ctype = "text")
    ∧ (∀ e, fetch = Except.error e →
        callTool fetch name args = [{ ctype := "text", text := "Error: " ++ e }])
    ∧ (∀ data, fetch = Except.ok data →
        name ≠ "search_services" → name ≠ "get_service_details" →
        name ≠ "list_services" → name ≠ "get_services_stats" →
        callTool fetch name args =
          [{ ctype := "text", text := "Unknown tool: " ++ name }]) := by
  intro fetch name args
  refine ⟨?_, ?_, ?_⟩
  · cases fetch with
    | error e => exact ⟨_, rfl, rfl⟩
    | ok data =>
        unfold callTool
        dsimp only
        repeat' split
        all_goals exact ⟨_, rfl, rfl⟩
  · intro e he
    subst he
    rfl
  · intro data hd h1 h2 h3 h4
    subst hd
    simp [callTool, h1, h2, h3, h4]

/-- C7 witness: a concrete failing fetch is rendered with the Error marker
and a concrete unknown tool name is answered with the unknown-tool text. -/
theorem call_tool_total_text_response_witness :
    callTool (Except.error "x") "foo" {} =
      [{ ctype := "text", text := "Error: x" }]
    ∧ callTool (Except.ok {}) "nope" {} =
      [{ ctype := "text", text := "Unknown tool: nope" }] := by
  have h1 := (call_tool_total_text_response (Except.error "x") "foo" {}).2.1 "x" rfl
  have h2 := (call_tool_total_text_response (Except.ok {}) "nope" {}).2.2 {}
    rfl (by decide) (by decide) (by decide) (by decide)
  exact ⟨h1.trans (by decide), h2.trans (by decide)⟩

/-- C8 (amended): the formatter is a total function and renders absent
fields with the N/A placeholder for the title, id, url, description, fees
and process time, and for requirement, prerequisite, form, authority and
legal NAMES; an absent requirement DESCRIPTION however is rendered as the
empty string, not as N/A. -/
theorem formatter_missing_field_placeholders :
    format_service_details {} =
      "# N/A\n\n**ID:** N/A\n**URL:** N/A\n\n## Description\nN/A\n\n## Fees\nN/A\n\n## Process Time\nN/A"
    ∧ requirementsLines { requirements := some [{}] } =
        ["\n## Requirements", "\n### N/A", ""]
    ∧ prerequisitesLines { prerequisites := some [{}] } =
        ["\n## Prerequisites", "- N/A"]
    ∧ formsLines { forms := some [{}] } = ["\n## Forms", "- N/A"]
    ∧ authoritiesLines { authorities := some [{}] } =
        ["\n## Responsible Authorities", "- N/A"]
    ∧ legalLines { legal := some [{}] } = ["\n## Legal Basis", "- N/A"] := by
  decide

/-- C8 counterexample: in a record where every rendered field is present
except one requirement's description, the missing description is rendered
as the empty string and the placeholder N/A appears nowhere in the output,
refuting the claim that requirement descriptions default to N/A. -/
theorem requirement_description_not_placeholder :
    requirementsLines svcReqNoDesc = ["\n## Requirements", "\n### X", ""]
    ∧ pyIn "N/A" (format_service_details svcReqNoDesc) = false := by
  decide
